import Mathlib

/-!
Verification development for the site-roast audit engine.

This file gives a shallow embedding, in Lean 4, of the scoring core of the
site-roast package: the data model (`AuditResult`, `WebsiteAudit`), the ten
category analyzers of `site_roast/auditor.py`, the aggregation and grading
logic of `site_roast/auditor.py` and `site_roast/scores.py`, the orchestrator
`WebsiteAuditor.audit`, and the JSON report emitter of
`site_roast/reporter.py`.  The external collaborators (HTTP fetcher, the
BeautifulSoup DOM parser, Python standard-library JSON, the randomized roast
text generator) are modelled at their interface boundary: a parsed document
is a record of the query results the analyzers read, a fetch outcome is an
`Except` value, and the roast generator is an arbitrary function parameter.

Python float arithmetic is modelled exactly, in integer arithmetic.  At
the `round` call sites the float result agrees with rounding the exact
rational, as analyzed in the comments at the relevant definitions: Python
3 `round` is round-half-to-even, and ties `s/10` and `s*w/100` are
exactly representable doubles, so `pyRoundHalfEven` below is an exact
model of `round` there.  The one call site where binary64 rounding is
observable — the images base score `int(alt_coverage * 100)`, where
truncating the double differs from flooring the exact rational — is
modelled by an explicit integer model of IEEE-754 binary64 (`pyFloatPct`
and its supporting definitions).
-/

namespace SiteRoast

/-- JSON values, the target of `json.dumps`/`json.loads` round trips and the
model of the `raw_data : Dict[str, Any]` payload of a category result.
Python ints are `num`, Python floats are `flt` (carried as the exact
rational they denote). -/
inductive Json where
  | null : Json
  | bool (b : Bool) : Json
  | num (n : ℤ) : Json
  | flt (q : ℚ) : Json
  | str (s : String) : Json
  | arr (items : List Json) : Json
  | obj (fields : List (String × Json)) : Json

/-- Case-insensitive-free infix test on character lists: `needle` occurs as a
contiguous run inside `hay`.  This models the Python substring operator
`needle in hay` on `str`. -/
def charsInfix (needle : List Char) : List Char → Bool
  | [] => needle.isEmpty
  | c :: rest => needle.isPrefixOf (c :: rest) || charsInfix needle rest

/-- Python `needle in hay` on strings. -/
def strIn (needle hay : String) : Bool :=
  charsInfix needle.toList hay.toList

/-- ASCII whitespace, the characters Python string stripping and the regex
whitespace class treat as space in the ASCII range (Python additionally
handles Unicode whitespace, which the compared content does not use). -/
def isPySpace (c : Char) : Bool :=
  c = ' ' || c = '\t' || c = '\n' || c = '\r' || c = '\x0b' || c = '\x0c'

/-- Python `str.lower()` (ASCII range). -/
def pyLower (s : String) : String :=
  String.mk (s.data.map Char.toLower)

/-- Python `str.strip()`: drop leading and trailing whitespace. -/
def pyStrip (s : String) : String :=
  String.mk (((s.data.dropWhile isPySpace).reverse.dropWhile isPySpace).reverse)

/-- Python `str.startswith(pre)`. -/
def pyStartsWith (s pre : String) : Bool :=
  pre.data.isPrefixOf s.data

/-- Model of Python 3 `round(num/den)` (including negative values), on the
exact rational `num/den`: round to nearest, ties to even.  Python rounds the
double `num/den`; at every call site in this code base the tie cases are
exactly representable doubles and non-tie cases are far enough from the
midpoint that the double rounds identically, so this is an exact model. -/
def pyRoundHalfEven (num den : ℤ) : ℤ :=
  let n := if den < 0 then -num else num
  let d := if den < 0 then -den else den
  let q := n / d
  let r := n % d
  if 2 * r < d then q
  else if d < 2 * r then q + 1
  else if q % 2 = 0 then q else q + 1

/-- Round-half-up of the nonnegative rational `a/b`, i.e. the "standard
round-half-up" the specification describes: equal to the floor of
`a/b + 1/2`.  This is a specification-side definition (it is what the spec
claims `round` does), used to compare against the behaviour of the code. -/
def roundHalfUpDiv (a b : ℕ) : ℕ :=
  (2 * a + b) / (2 * b)

/-- Model of Python `int(q)` on a rational: truncation toward zero. -/
def pyTrunc (q : ℚ) : ℤ :=
  Int.tdiv q.num q.den

/-! ### An exact model of IEEE-754 binary64 for `int(with_alt / total * 100)`

The images analyzer computes `int(alt_coverage * 100)` where
`alt_coverage = with_alt / total_images` is a Python float.  Exact
truncated division is NOT a faithful model of that: for example
`29 / 50 * 100` is `57.99999999999999289...` in binary64, so
`int(0.58 * 100) = 57` while `⌊100 * 29 / 50⌋ = 58`.  The functions below
model the two correctly rounded binary64 operations (the division
`with_alt / total`, CPython rounds `int / int` correctly even for big
ints, and the multiplication by 100) exactly, in integer arithmetic:
round to nearest, ties to even, 53-bit significands, with the subnormal
range below `2 ^ (-1022)` on the fixed grid `2 ^ (-1074)` and underflow
to zero.  Overflow cannot occur at these call sites (all values lie in
`[0, 100]`). -/

/-- Bit length of a natural number (`int.bit_length()` in Python): 0 for
0, otherwise one more than the exponent of the leading binary digit.
Implemented with explicit fuel (any fuel ≥ the argument suffices; the
recursion stops after one step per binary digit) so that it reduces in
the kernel. -/
def bitLenAux : ℕ → ℕ → ℕ
  | 0, _ => 0
  | fuel + 1, n => if n = 0 then 0 else bitLenAux fuel (n / 2) + 1

/-- Bit length of a natural number. -/
def bitLen (n : ℕ) : ℕ := bitLenAux n n

/-- Does `2 ^ d ≤ a / b` hold, for naturals `a, b ≥ 1` and an integer
exponent `d`?  Stated in integer arithmetic. -/
def qPowLe (d : ℤ) (a b : ℕ) : Bool :=
  if 0 ≤ d then decide (b * 2 ^ d.toNat ≤ a) else decide (b ≤ a * 2 ^ (-d).toNat)

/-- `⌊log2 (a / b)⌋` for naturals `a, b ≥ 1`: the unique `e` with
`2 ^ e ≤ a / b < 2 ^ (e + 1)`. -/
def qFloorLog2 (a b : ℕ) : ℤ :=
  let d : ℤ := (bitLen a : ℤ) - (bitLen b : ℤ)
  if qPowLe d a b then d else d - 1

/-- Correctly rounded binary64 value of the positive rational `a / b`
(`a, b ≥ 1`): the pair `(m, s)` denotes `m * 2 ^ s`.  The grid exponent
is `e - 52` for a value in binade `e ≥ -1022`, and the fixed subnormal
grid `-1074` below that; the significand is the nearest grid multiple,
ties to even. -/
def flPos (a b : ℕ) : ℤ × ℤ :=
  let e := qFloorLog2 a b
  let s := max e (-1022) - 52
  let m := if 0 ≤ s then pyRoundHalfEven (a : ℤ) ((b : ℤ) * 2 ^ s.toNat)
           else pyRoundHalfEven ((a : ℤ) * 2 ^ (-s).toNat) (b : ℤ)
  (m, s)

/-- Correctly rounded binary64 value of the dyadic `n * 2 ^ s` (`n : ℕ`):
when the value already fits the target grid it is kept exactly, otherwise
the significand is rounded to the grid, ties to even. -/
def flDyadic (n : ℕ) (s : ℤ) : ℤ × ℤ :=
  if n = 0 then (0, 0)
  else
    let e := s + (bitLen n : ℤ) - 1
    let g := max e (-1022) - 52
    if g ≤ s then ((n : ℤ) * 2 ^ (s - g).toNat, g)
    else (pyRoundHalfEven (n : ℤ) (2 ^ (g - s).toNat), g)

/-- Floor (= `int()` truncation, for the nonnegative values arising here)
of the dyadic `m * 2 ^ s`. -/
def dyadicFloor (m s : ℤ) : ℤ :=
  if 0 ≤ s then m * 2 ^ s.toNat else m / 2 ^ (-s).toNat

/-- `int(w / t * 100)` as CPython evaluates it for naturals `w, t` with
`t ≥ 1`: the correctly rounded binary64 quotient `w / t`, multiplied by
100 with correct rounding, truncated to an integer. -/
def pyFloatPct (w t : ℕ) : ℕ :=
  if w = 0 then 0
  else
    let x := flPos w t
    let y := flDyadic (100 * x.1).toNat x.2
    (dyadicFloor y.1 y.2).toNat

/-- Container for a single audit category result
(`site_roast/auditor.py`, `AuditResult`). -/
structure AuditResult where
  score : ℕ
  max_score : ℕ := 100
  findings : List String := []
  recommendations : List String := []
  raw_data : List (String × Json) := []

/-- Complete audit results for a website
(`site_roast/auditor.py`, `WebsiteAudit`). -/
structure WebsiteAudit where
  url : String
  timestamp : ℚ
  duration_ms : ℤ
  title : AuditResult
  meta_description : AuditResult
  headings : AuditResult
  images : AuditResult
  mobile : AuditResult
  ssl_security : AuditResult
  performance : AuditResult
  links : AuditResult
  open_graph : AuditResult
  schema : AuditResult

/-- The list `scores` built inside `WebsiteAudit.get_overall_score`. -/
def WebsiteAudit.scores (w : WebsiteAudit) : List ℕ :=
  [w.title.score,
   w.meta_description.score,
   w.headings.score,
   w.images.score,
   w.mobile.score,
   w.ssl_security.score,
   w.performance.score,
   w.links.score,
   w.open_graph.score,
   w.schema.score]

/-- Overall score: `round(sum(scores) / len(scores))`
(`site_roast/auditor.py`, `WebsiteAudit.get_overall_score`). -/
def WebsiteAudit.get_overall_score (w : WebsiteAudit) : ℤ :=
  pyRoundHalfEven (w.scores.sum : ℤ) (w.scores.length : ℤ)

/-- Letter grade of the overall score
(`site_roast/auditor.py`, `WebsiteAudit.get_grade`). -/
def WebsiteAudit.get_grade (w : WebsiteAudit) : String :=
  let score := w.get_overall_score
  if score ≥ 97 then "A+"
  else if score ≥ 93 then "A"
  else if score ≥ 90 then "A-"
  else if score ≥ 87 then "B+"
  else if score ≥ 83 then "B"
  else if score ≥ 80 then "B-"
  else if score ≥ 77 then "C+"
  else if score ≥ 73 then "C"
  else if score ≥ 70 then "C-"
  else if score ≥ 67 then "D+"
  else if score ≥ 63 then "D"
  else if score ≥ 60 then "D-"
  else "F"

/-- Average of a score list: `round(sum(scores) / len(scores))`, `0` when
empty (`site_roast/scores.py`, `ScoreCalculator.calculate_average`). -/
def ScoreCalculator.calculate_average (scores : List ℕ) : ℤ :=
  if scores = [] then 0
  else pyRoundHalfEven (scores.sum : ℤ) (scores.length : ℤ)

/-- Letter grade of a numerical score
(`site_roast/scores.py`, `ScoreCalculator.score_to_grade`). -/
def ScoreCalculator.score_to_grade (score : ℤ) : String :=
  if score ≥ 97 then "A+"
  else if score ≥ 93 then "A"
  else if score ≥ 90 then "A-"
  else if score ≥ 87 then "B+"
  else if score ≥ 83 then "B"
  else if score ≥ 80 then "B-"
  else if score ≥ 77 then "C+"
  else if score ≥ 73 then "C"
  else if score ≥ 70 then "C-"
  else if score ≥ 67 then "D+"
  else if score ≥ 63 then "D"
  else if score ≥ 60 then "D-"
  else "F"

/-- Python exceptions the scoring code can raise: the `ValueError` of
`weighted_average`, the `ZeroDivisionError` of its normalization branch,
and the `TypeError` of `str.join` on non-string items in `_audit_schema`
(the Python message text is elided). -/
inductive PyErr where
  | valueError (msg : String) : PyErr
  | zeroDivisionError : PyErr
  | typeError : PyErr
deriving DecidableEq

/-- Weighted average (`site_roast/scores.py`, `ScoreCalculator.weighted_average`).

The source computes, in floats,
`weighted_sum = sum(s * (w / 100) for s, w in zip(scores, weights))` after
replacing `weights` by `[w / total_weight * 100 for w in weights]` whenever
`total_weight != 100`; the result is `round(weighted_sum)`.  On the exact
rationals, `sum(s * ((w / total * 100) / 100)) = (sum of s * w) / total` and
in the unnormalized branch `sum(s * (w / 100)) = (sum of s * w) / 100`, which
is how the two `.ok` branches below are expressed.  When `total_weight = 0`
the comprehension `w / total_weight` raises an unhandled
`ZeroDivisionError`. -/
def ScoreCalculator.weighted_average (scores weights : List ℤ) :
    Except PyErr ℤ :=
  if scores.length ≠ weights.length then
    .error (.valueError "Scores and weights must have same length")
  else if scores = [] then .ok 0
  else
    let total_weight := weights.sum
    let dot := ((scores.zip weights).map (fun p => p.1 * p.2)).sum
    if total_weight = 100 then .ok (pyRoundHalfEven dot 100)
    else if total_weight = 0 then .error .zeroDivisionError
    else .ok (pyRoundHalfEven dot total_weight)

/-- An `img` element, reduced to the attributes the analyzers query. -/
structure ImgTag where
  alt : Option String := none
  loading : Option String := none
  src : Option String := none
deriving DecidableEq

/-- An `a` element carrying an `href` (only those are returned by
`soup.find_all("a", href=True)`).  BeautifulSoup exposes the `rel`
attribute as a list of tokens, or `None` when absent. -/
structure ATag where
  href : String := ""
  rel : Option (List String) := none
deriving DecidableEq

/-- A `link rel="stylesheet"` element, reduced to its `media` attribute. -/
structure StyleLink where
  media : Option String := none
deriving DecidableEq

/-- The outcome of `json.loads` on one JSON-LD script block, at the level of
detail `_audit_schema` inspects.  `noText` is a script whose `.string` is
`None` or empty (the source then uses the empty dict); `parseError` is a
block whose text raises `json.JSONDecodeError`; `objBlock t` is a JSON
object with optional `@type` value `t` — an arbitrary JSON value, not
necessarily a string (the common JSON-LD idiom uses a list there);
`arrBlock` is a JSON array whose entries are either non-dicts (`none`) or
dicts with optional `@type` value; `otherJson` is any other JSON value
(string, number, ...). -/
inductive JsonLdBlock where
  | noText : JsonLdBlock
  | parseError : JsonLdBlock
  | objBlock (typeField : Option Json) : JsonLdBlock
  | arrBlock (items : List (Option (Option Json))) : JsonLdBlock
  | otherJson : JsonLdBlock

/-- A parsed document, modelled as the record of query results the ten
analyzers read from the BeautifulSoup object (the DOM parser itself is an
external collaborator).  `Option (Option String)` fields distinguish a
missing element (`none`) from a present element with a missing attribute
(`some none`) and a present attribute (`some (some value)`). -/
structure Doc where
  titleText : Option String := none
  metaDescription : Option (Option String) := none
  headings : List (ℕ × String) := []
  imgs : List ImgTag := []
  viewport : Option (Option String) := none
  mediaQueryCount : ℕ := 0
  stylesheets : List StyleLink := []
  scriptSrcCount : ℕ := 0
  anchors : List ATag := []
  ogTitle : Option (Option String) := none
  ogDescription : Option (Option String) := none
  ogImage : Option (Option String) := none
  ogUrl : Option (Option String) := none
  ogType : Option (Option String) := none
  twitterCard : Bool := false
  jsonLd : List JsonLdBlock := []
  microdataCount : ℕ := 0

/-- A fetched HTTP response, at the interface the audit engine reads:
status code, header names (requests exposes them case-insensitively),
`len(response.content)`, `response.text`, and the parse of the body. -/
structure Response where
  status : ℕ := 200
  headers : List String := []
  contentLength : ℕ := 0
  text : String := ""
  doc : Doc := {}

/-- Audit of the page title (`WebsiteAuditor._audit_title`).  Nat
subtraction models the `max(0, score - 30)` of the source. -/
def audit_title (soup : Doc) : AuditResult :=
  match soup.titleText with
  | none =>
    { score := 0,
      findings := ["No title tag found"],
      recommendations := ["Add a <title> tag to your <head> section"] }
  | some title =>
    if title = "" then
      { score := 0,
        findings := ["No title tag found"],
        recommendations := ["Add a <title> tag to your <head> section"] }
    else
      let title_length := title.length
      let findings := ["Title found: \x27" ++ title ++ "\x27",
                       "Title length: " ++ toString title_length ++ " characters"]
      let lenStep : ℕ × List String × List String :=
        if 50 ≤ title_length ∧ title_length ≤ 60 then
          (100, ["Title length is optimal for search engines"], [])
        else if (30 ≤ title_length ∧ title_length < 50) ∨
                (60 < title_length ∧ title_length ≤ 70) then
          (80, ["Title length is acceptable but could be improved"],
           ["Aim for 50-60 characters for optimal display"])
        else if title_length < 30 then
          (50, ["Title is too short"],
           ["Expand your title to 50-60 characters"])
        else
          (60, ["Title is too long and may be truncated in search results"],
           ["Shorten your title to 50-60 characters"])
      let score := lenStep.1
      let findings := findings ++ lenStep.2.1
      let recommendations := lenStep.2.2
      let generic_words := ["home", "untitled", "index", "page", "website"]
      let isGeneric := generic_words.any (fun word => strIn word (pyLower title))
      let score := if isGeneric then score - 30 else score
      let findings :=
        if isGeneric then findings ++ ["Title appears to be generic"] else findings
      let recommendations :=
        if isGeneric then
          recommendations ++
            ["Use a descriptive, unique title that describes your page content"]
        else recommendations
      { score := score, findings := findings, recommendations := recommendations,
        raw_data := [("title", .str title), ("length", .num (title_length : ℤ))] }

/-- Audit of the meta description (`WebsiteAuditor._audit_meta_description`). -/
def audit_meta_description (soup : Doc) : AuditResult :=
  match soup.metaDescription with
  | none =>
    { score := 0,
      findings := ["No meta description found"],
      recommendations :=
        ["Add a meta description: <meta name=\x27description\x27 content=\x27...\x27>"] }
  | some attr =>
    let content := pyStrip (attr.getD "")
    let desc_length := content.length
    let findings := ["Meta description found",
                     "Description length: " ++ toString desc_length ++ " characters"]
    if content = "" then
      { score := 10,
        findings := findings ++ ["Meta description is empty"],
        recommendations := ["Add meaningful content to your meta description"] }
    else
      let lenStep : ℕ × List String × List String :=
        if 150 ≤ desc_length ∧ desc_length ≤ 160 then
          (100, ["Description length is optimal"], [])
        else if (120 ≤ desc_length ∧ desc_length < 150) ∨
                (160 < desc_length ∧ desc_length ≤ 170) then
          (85, ["Description length is good"],
           ["Aim for 150-160 characters for optimal display"])
        else if desc_length < 120 then
          (60, ["Description is too short"],
           ["Expand your description to 150-160 characters"])
        else
          (70, ["Description is too long and may be truncated"],
           ["Shorten your description to 150-160 characters"])
      let score := lenStep.1
      let findings := findings ++ lenStep.2.1
      let recommendations := lenStep.2.2
      let generic_phrases := ["this is a website", "welcome to", "click here", "learn more"]
      let isGeneric := generic_phrases.any (fun phrase => strIn phrase (pyLower content))
      let score := if isGeneric then score - 20 else score
      let findings :=
        if isGeneric then findings ++ ["Description appears to be generic"] else findings
      let recommendations :=
        if isGeneric then
          recommendations ++
            ["Write a compelling, unique description that entices clicks"]
        else recommendations
      { score := score, findings := findings, recommendations := recommendations,
        raw_data := [("description", .str content), ("length", .num (desc_length : ℤ))] }

/-- Audit of the heading structure (`WebsiteAuditor._audit_headings`).
`soup.headings` carries every H1-H6 as its level and stripped text, in
document order. -/
def audit_headings (soup : Doc) : AuditResult :=
  let h1_tags := soup.headings.filter (fun h => h.1 = 1)
  let h2_count := (soup.headings.filter (fun h => h.1 = 2)).length
  let h3_count := (soup.headings.filter (fun h => h.1 = 3)).length
  let all_headings := soup.headings
  let findings := ["Found " ++ toString h1_tags.length ++ " H1, " ++
                   toString h2_count ++ " H2, " ++ toString h3_count ++ " H3 tags"]
  let score : ℕ := 100
  let h1Step : ℕ × List String × List String :=
    if h1_tags.length = 0 then
      (score - 40, ["No H1 tag found - every page needs one main heading"],
       ["Add an H1 tag that describes your main content"])
    else if h1_tags.length > 1 then
      (score - 20,
       ["Multiple H1 tags found (" ++ toString h1_tags.length ++
        "). Use only one H1 per page."],
       ["Consolidate to a single H1 tag"])
    else
      let h1_text := (h1_tags.headD (1, "")).2
      if h1_text ≠ "" then
        (score, ["H1 content: \x27" ++ h1_text.take 50 ++ "...\x27"], [])
      else
        (score - 15, ["H1 tag is empty"], ["Add text content to your H1 tag"])
  let score := h1Step.1
  let findings := findings ++ h1Step.2.1
  let recommendations := h1Step.2.2
  let heading_levels := all_headings.map (fun h => h.1)
  let skipped_levels :=
    (heading_levels.foldl
      (fun acc level =>
        (level,
         if level > acc.1 + 1 then
           acc.2 ++ ["H" ++ toString acc.1 ++ " -> H" ++ toString level]
         else acc.2))
      ((0 : ℕ), ([] : List String))).2
  let hasSkips := skipped_levels ≠ []
  let score := if hasSkips then score - 10 else score
  let findings :=
    if hasSkips then
      findings ++ ["Skipped heading levels detected: " ++
        String.intercalate ", " (skipped_levels.take 3)]
    else findings
  let recommendations :=
    if hasSkips then
      recommendations ++
        ["Maintain proper heading hierarchy (don\x27t skip from H1 to H3)"]
    else recommendations
  let noHeadings := all_headings.length = 0
  let score := if noHeadings then 0 else score
  let findings :=
    if noHeadings then findings ++ ["No heading tags found at all"] else findings
  let recommendations :=
    if noHeadings then
      recommendations ++ ["Structure your content with proper heading tags (H1-H6)"]
    else recommendations
  { score := score, findings := findings, recommendations := recommendations,
    raw_data := [("h1_count", .num (h1_tags.length : ℤ)),
                 ("h2_count", .num (h2_count : ℤ)),
                 ("h3_count", .num (h3_count : ℤ)),
                 ("total_headings", .num (all_headings.length : ℤ))] }

/-- Audit of images (`WebsiteAuditor._audit_images`).  The source classifies
each image in one loop (`alt is None` / `not alt.strip()` / rest); the two
`countP` calls implement the same classification.  The base score
`int(alt_coverage * 100)` is float arithmetic — `alt_coverage` is the
binary64 quotient `with_alt / total_images` — and is modelled exactly by
`pyFloatPct` (note that this differs from exact truncated division: for
29 of 50 images `int(0.58 * 100) = 57`, not 58); Nat subtraction models
`max(0, score - k)`. -/
def audit_images (soup : Doc) : AuditResult :=
  let images := soup.imgs
  let total_images := images.length
  let findings := ["Found " ++ toString total_images ++ " image(s)"]
  if total_images = 0 then
    { score := 70,
      findings := findings ++ ["No images on page - consider adding visual content"],
      recommendations := [] }
  else
    let missing_alt := images.countP (fun img => img.alt = none)
    let empty_alt := images.countP (fun img =>
      match img.alt with
      | none => false
      | some a => pyStrip a = "")
    let with_alt := total_images - missing_alt - empty_alt
    let findings := findings ++
      ["Images with alt text: " ++ toString with_alt ++ "/" ++ toString total_images]
    let findings :=
      if missing_alt > 0 then
        findings ++ ["Missing alt attributes: " ++ toString missing_alt]
      else findings
    let findings :=
      if empty_alt > 0 then
        findings ++ ["Empty alt attributes: " ++ toString empty_alt]
      else findings
    let score := if total_images > 0 then pyFloatPct with_alt total_images else 100
    let score := if missing_alt > 0 then score - 10 else score
    let recommendations :=
      if missing_alt > 0 then
        ["Add alt attributes to " ++ toString missing_alt ++ " image(s)"]
      else []
    let score := if empty_alt > 0 then score - 5 else score
    let recommendations :=
      if empty_alt > 0 then
        recommendations ++
          ["Add descriptive alt text to " ++ toString empty_alt ++ " image(s)"]
      else recommendations
    let lazy_loaded := images.countP (fun img => img.loading = some "lazy")
    -- lazy_loaded < total_images * 0.5 is exact as 2 * lazy_loaded < total_images
    let recommendations :=
      if 2 * lazy_loaded < total_images ∧ total_images > 5 then
        recommendations ++
          ["Consider adding loading=\x27lazy\x27 to images below the fold"]
      else recommendations
    { score := score, findings := findings, recommendations := recommendations,
      raw_data := [("total", .num (total_images : ℤ)),
                   ("with_alt", .num (with_alt : ℤ)),
                   ("missing_alt", .num (missing_alt : ℤ)),
                   ("empty_alt", .num (empty_alt : ℤ)),
                   ("lazy_loaded", .num (lazy_loaded : ℤ))] }

/-- Consume `pat` (given lowercased) from the front of `cs`
case-insensitively, returning the remainder on success. -/
def matchLowerAt : List Char → List Char → Option (List Char)
  | [], rest => some rest
  | _ :: _, [] => none
  | p :: ps, c :: cs => if c.toLower = p then matchLowerAt ps cs else none

/-- Match, at the head of `cs`, the regex
`width\s*:\s*\d\x7b4,\x7dpx` with `re.IGNORECASE`
from `_audit_mobile`: the literal `width`, optional whitespace, a colon,
optional whitespace, at least four digits, then `px`.  The character
classes are modelled over their ASCII meaning (`isPySpace` and
`Char.isDigit`); Python `\s` and `\d` additionally match Unicode
whitespace and digits, which no realistic CSS width declaration
contains. -/
def fixedWidthMatchAt (cs : List Char) : Bool :=
  match matchLowerAt "width".toList cs with
  | none => false
  | some r1 =>
    match r1.dropWhile isPySpace with
    | ':' :: r3 =>
      let r4 := r3.dropWhile isPySpace
      let digits := r4.takeWhile Char.isDigit
      let rest := r4.dropWhile Char.isDigit
      decide (4 ≤ digits.length) && (matchLowerAt "px".toList rest).isSome
    | _ => false

/-- Model of `fixed_width_pattern.search(response.text)`: does the width
pattern match at any position of the text? -/
def fixedWidthSearch : List Char → Bool
  | [] => false
  | c :: rest => fixedWidthMatchAt (c :: rest) || fixedWidthSearch rest

/-- Audit of mobile responsiveness (`WebsiteAuditor._audit_mobile`). -/
def audit_mobile (soup : Doc) (response : Response) : AuditResult :=
  let score : ℕ := 100
  let vpStep : ℕ × List String × List String :=
    match soup.viewport with
    | none =>
      (score - 40, ["No viewport meta tag found"],
       ["Add: <meta name=\x27viewport\x27 content=\x27width=device-width, initial-scale=1\x27>"])
    | some attr =>
      let content := attr.getD ""
      let findings := ["Viewport found: " ++ content]
      if ¬ strIn "width=device-width" content then
        (score - 20, findings ++ ["Viewport missing \x27width=device-width\x27"],
         ["Add width=device-width to viewport content"])
      else (score, findings, [])
  let score := vpStep.1
  let findings := vpStep.2.1
  let recommendations := vpStep.2.2
  let media_queries := soup.mediaQueryCount
  let findings :=
    if media_queries > 0 then
      findings ++ ["Found " ++ toString media_queries ++ " media query references"]
    else findings
  let hasFixed := fixedWidthSearch response.text.toList
  let score := if hasFixed then score - 15 else score
  let findings :=
    if hasFixed then
      findings ++
        ["Fixed widths >1000px detected - may cause horizontal scrolling on mobile"]
    else findings
  let recommendations :=
    if hasFixed then
      recommendations ++
        ["Use relative units (%, vw, rem) instead of large fixed pixel widths"]
    else recommendations
  { score := score, findings := findings, recommendations := recommendations,
    raw_data := [("viewport",
      match soup.viewport with
      | none => .null
      | some attr =>
        match attr with
        | none => .null
        | some c => .str c)] }

/-- The five security headers `_audit_ssl_security` checks, with their
descriptions, in source order. -/
def securityHeaders : List (String × String) :=
  [("Strict-Transport-Security", "HSTS - forces HTTPS connections"),
   ("Content-Security-Policy", "CSP - prevents XSS attacks"),
   ("X-Frame-Options", "Prevents clickjacking"),
   ("X-Content-Type-Options", "Prevents MIME sniffing"),
   ("Referrer-Policy", "Controls referrer information leakage")]

/-- Scheme of a URL as `urllib.parse.urlparse(url).scheme` computes it for
the URLs the auditor sees: the lowercased text before the first colon, or
empty when the URL has no colon. -/
def urlScheme (url : String) : String :=
  if url.data.contains ':' then
    pyLower (String.mk (url.data.takeWhile (fun c => c ≠ ':')))
  else ""

/-- Membership test in the response headers; requests exposes header keys
case-insensitively. -/
def hasHeader (response : Response) (name : String) : Bool :=
  response.headers.any (fun k => pyLower k = pyLower name)

/-- Audit of HTTPS and security headers (`WebsiteAuditor._audit_ssl_security`). -/
def audit_ssl_security (url : String) (response : Response) : AuditResult :=
  let score : ℕ := 100
  let https := urlScheme url = "https"
  let step1 : ℕ × List String × List String :=
    if ¬ https then
      (score - 50, ["Site is not using HTTPS"],
       ["Enable HTTPS - it\x27s free with Let\x27s Encrypt and essential for security"])
    else
      (score, ["HTTPS is enabled ✓"], [])
  let score := step1.1
  let findings := step1.2.1
  let recommendations := step1.2.2
  let found_headers :=
    (securityHeaders.filter (fun h => hasHeader response h.1)).map (fun h => h.1)
  let missing_headers := securityHeaders.filter (fun h => ¬ hasHeader response h.1)
  let findings := findings ++
    ["Security headers found: " ++ toString found_headers.length ++ "/" ++
     toString securityHeaders.length]
  let anyMissing := missing_headers ≠ []
  let score := if anyMissing then score - min 30 (missing_headers.length * 6) else score
  let recommendations := recommendations ++
    (if anyMissing then
      (missing_headers.take 3).map (fun h => "Add " ++ h.1 ++ " header: " ++ h.2)
     else [])
  { score := score, findings := findings, recommendations := recommendations,
    raw_data := [("https", .bool https),
                 ("found_headers", .arr (found_headers.map .str)),
                 ("missing_headers", .arr (missing_headers.map (fun h => .str h.1)))] }

/-- The `f"\x7bsize_kb:.1f\x7d"` display of `content_length / 1024`:
the exact value rounded to one decimal, ties to even (the double
`content_length / 1024` is exact, division by a power of two). -/
def fmtKB (content_length : ℕ) : String :=
  let deci := (pyRoundHalfEven ((content_length : ℤ) * 10) 1024).toNat
  toString (deci / 10) ++ "." ++ toString (deci % 10)

/-- Audit of performance indicators (`WebsiteAuditor._audit_performance`).
The source takes `(response, content_length, html_content)` and re-parses
`html_content`; `soup` here stands for that re-parse, which queries the same
fetched body (the `response` argument itself is unused by the source body).
The float comparisons `size_kb > 2000` etc. are exact as
`content_length > 2000 * 1024` etc. -/
def audit_performance (content_length : ℕ) (soup : Doc) : AuditResult :=
  let score : ℕ := 100
  let findings := ["Page size: " ++ fmtKB content_length ++ " KB"]
  let sizeStep : ℕ × List String × List String :=
    if content_length > 2000 * 1024 then
      (score - 30, ["Page is very large (>2MB)"],
       ["Optimize images and minify CSS/JS to reduce page size"])
    else if content_length > 1000 * 1024 then
      (score - 15, ["Page is quite large (>1MB)"],
       ["Consider compressing images and lazy loading"])
    else if content_length > 500 * 1024 then
      (score - 5, ["Page is moderately large"], [])
    else (score, [], [])
  let score := sizeStep.1
  let findings := findings ++ sizeStep.2.1
  let recommendations := sizeStep.2.2
  let css_files := soup.stylesheets.length
  let js_files := soup.scriptSrcCount
  let images := soup.imgs.length
  let findings := findings ++
    ["External resources: " ++ toString css_files ++ " CSS, " ++
     toString js_files ++ " JS, " ++ toString images ++ " images"]
  let total_external := css_files + js_files
  let resStep : ℕ × List String × List String :=
    if total_external > 20 then
      (score - 15, ["Excessive external resources (" ++ toString total_external ++ ")"],
       ["Combine and minify CSS/JS files to reduce HTTP requests"])
    else if total_external > 10 then
      (score - 5, ["Many external resources"],
       ["Consider combining some CSS/JS files"])
    else (score, [], [])
  let score := resStep.1
  let findings := findings ++ resStep.2.1
  let recommendations := recommendations ++ resStep.2.2
  let blocking_css := soup.stylesheets.countP (fun l => l.media != some "print")
  let recommendations :=
    if blocking_css > 3 then
      recommendations ++ ["Consider loading non-critical CSS asynchronously"]
    else recommendations
  let img_srcs := soup.imgs.map (fun img => img.src.getD "")
  let modern_formats := img_srcs.countP (fun src =>
    strIn ".webp" (pyLower src) || strIn ".avif" (pyLower src))
  let recommendations :=
    if images > 0 ∧ modern_formats = 0 then
      recommendations ++ ["Consider using WebP format for better compression"]
    else recommendations
  { score := score, findings := findings, recommendations := recommendations,
    raw_data := [("size_kb", .flt ((content_length : ℚ) / 1024)),
                 ("css_files", .num (css_files : ℤ)),
                 ("js_files", .num (js_files : ℤ)),
                 ("image_count", .num (images : ℤ))] }

/-- Rest of a character list after the first `://` separator, if any. -/
def afterSchemeSep : List Char → Option (List Char)
  | ':' :: '/' :: '/' :: rest => some rest
  | _ :: rest => afterSchemeSep rest
  | [] => none

/-- Network location of a URL as `urllib.parse.urlparse(url).netloc`
computes it for the URLs the auditor sees: the text between the first
`://` and the following `/`, `?` or `#`; empty when the URL has no
scheme separator. -/
def netlocOf (url : String) : String :=
  match afterSchemeSep url.data with
  | none => ""
  | some rest =>
    String.mk (rest.takeWhile (fun c => ¬ (c = '/' || c = '?' || c = '#')))

/-- Audit of links (`WebsiteAuditor._audit_links`). -/
def audit_links (soup : Doc) (base_url : String) : AuditResult :=
  let links := soup.anchors
  let total_links := links.length
  let findings := ["Found " ++ toString total_links ++ " link(s)"]
  if total_links = 0 then
    { score := 30,
      findings := findings ++ ["No links found on page"],
      recommendations := ["Add navigation links to help users explore your site"] }
  else
    let base_domain := netlocOf base_url
    let isAbs := fun (href : String) =>
      pyStartsWith href "http://" || pyStartsWith href "https://"
    let internal := links.countP (fun l =>
      if isAbs l.href then netlocOf l.href == base_domain
      else
        !(pyStartsWith l.href "#" || pyStartsWith l.href "javascript:" ||
          pyStartsWith l.href "mailto:" || pyStartsWith l.href "tel:"))
    let external := links.countP (fun l =>
      isAbs l.href && netlocOf l.href != base_domain)
    let nofollow := links.countP (fun l =>
      match l.rel with
      | none => false
      | some r => !r.isEmpty && r.contains "nofollow")
    let findings := findings ++
      ["Internal links: " ++ toString internal, "External links: " ++ toString external]
    let score : ℕ := 100
    let fewLinks := total_links < 3
    let score := if fewLinks then score - 30 else score
    let findings := if fewLinks then findings ++ ["Very few links on page"] else findings
    let recommendations :=
      if fewLinks then ["Add more navigation links to improve site structure"] else []
    let external_no_rel := links.countP (fun l =>
      isAbs l.href && netlocOf l.href != base_domain &&
      (match l.rel with
       | none => true
       | some r => r.isEmpty || !r.contains "noopener"))
    let noopenerStep := external > 0 ∧ external_no_rel > 0
    let score := if noopenerStep then score - 10 else score
    let findings :=
      if noopenerStep then
        findings ++ [toString external_no_rel ++
          " external links missing rel=\x27noopener noreferrer\x27"]
      else findings
    let recommendations :=
      if noopenerStep then
        recommendations ++
          ["Add rel=\x27noopener noreferrer\x27 to external links for security"]
      else recommendations
    { score := score, findings := findings, recommendations := recommendations,
      raw_data := [("total", .num (total_links : ℤ)),
                   ("internal", .num (internal : ℤ)),
                   ("external", .num (external : ℤ)),
                   ("nofollow", .num (nofollow : ℤ))] }

/-- The five essential Open Graph properties `_audit_open_graph` checks,
with their descriptions and the corresponding query results. -/
def ogTagList (soup : Doc) : List (String × String × Option (Option String)) :=
  [("og:title", "Title for social sharing", soup.ogTitle),
   ("og:description", "Description for social sharing", soup.ogDescription),
   ("og:image", "Image displayed when shared", soup.ogImage),
   ("og:url", "Canonical URL", soup.ogUrl),
   ("og:type", "Content type (website, article, etc.)", soup.ogType)]

/-- Audit of Open Graph tags (`WebsiteAuditor._audit_open_graph`).  A tag
counts as found when the element exists and its `content` attribute is
truthy (present and non-empty); `int(coverage * 100)` is exact at the six
possible coverages, modelled by `(found * 100) / 5`. -/
def audit_open_graph (soup : Doc) : AuditResult :=
  let og_tags := ogTagList soup
  let found_tags := og_tags.filterMap (fun t =>
    match t.2.2 with
    | some (some c) => if c ≠ "" then some (t.1, c) else none
    | _ => none)
  let missing_tags := og_tags.filter (fun t =>
    match t.2.2 with
    | some (some c) => c == ""
    | _ => true)
  let findings := ["Open Graph tags found: " ++ toString found_tags.length ++ "/" ++
                   toString og_tags.length]
  let score := (found_tags.length * 100) / og_tags.length
  let recommendations := (missing_tags.take 3).map (fun t => "Add " ++ t.1 ++ ": " ++ t.2.1)
  let twStep : List String × List String :=
    if soup.twitterCard then (["Twitter Card tags also present ✓"], [])
    else ([], ["Consider adding Twitter Card meta tags for better X/Twitter sharing"])
  { score := score,
    findings := findings ++ twStep.1,
    recommendations := recommendations ++ twStep.2,
    raw_data := [("found_tags", .obj (found_tags.map (fun t => (t.1, .str t.2)))),
                 ("missing_tags", .arr (missing_tags.map (fun t => .str t.1)))] }

/-- The `@type` values one JSON-LD block contributes to
`schema_types_found` in `_audit_schema`: a dict contributes its `@type`
value verbatim (default the string `"Unknown"`), a list contributes one
entry per dict element, a block whose JSON fails to parse contributes
nothing (the exception is swallowed), other JSON values contribute
nothing.  The collected values need not be strings. -/
def blockTypes : JsonLdBlock → List Json
  | .noText => [.str "Unknown"]
  | .parseError => []
  | .objBlock t => [t.getD (.str "Unknown")]
  | .arrBlock items =>
    items.filterMap (fun item => item.map (fun t => t.getD (.str "Unknown")))
  | .otherJson => []

/-- All-strings check used to model `str.join`: returns the strings when
every value is a JSON string, `none` as soon as one is not. -/
def allStrings : List Json → Option (List String)
  | [] => some []
  | .str s :: rest => (allStrings rest).map (fun l => s :: l)
  | _ => none

/-- Audit of structured data (`WebsiteAuditor._audit_schema`).  The
analyzer is fallible: after computing the score it renders the finding
with a comma join over `schema_types_found` (first five entries), and the
Python join raises an uncaught `TypeError` as soon as one of those
entries is not a string — e.g. a block `\x7b"@type": ["Organization",
"LocalBusiness"]\x7d`, the common JSON-LD list idiom.  Only
`json.JSONDecodeError`/`AttributeError` raised while parsing are caught,
so the `TypeError` escapes the analyzer (and, from there,
`WebsiteAuditor.audit`). -/
def audit_schema (soup : Doc) : Except PyErr AuditResult :=
  let jsonld_scripts := soup.jsonLd
  let findings := ["Found " ++ toString jsonld_scripts.length ++ " JSON-LD script(s)"]
  if jsonld_scripts.length = 0 then
    .ok { score := 0,
          findings := findings ++ ["No structured data found"],
          recommendations := ["Add JSON-LD structured data for better search visibility",
                              "Consider Organization, WebSite, or Article schema types"] }
  else
    let score := min 100 (40 + jsonld_scripts.length * 20)
    let schema_types_found := (jsonld_scripts.map blockTypes).flatten
    let assemble : List String → AuditResult := fun findings =>
      let findings :=
        if soup.microdataCount > 0 then
          findings ++ ["Also found " ++ toString soup.microdataCount ++
            " microdata element(s)"]
        else findings
      let recommendations :=
        if jsonld_scripts.length < 2 then
          ["Consider adding more structured data types (BreadcrumbList, Article, etc.)"]
        else []
      { score := score, findings := findings, recommendations := recommendations,
        raw_data := [("jsonld_count", .num (jsonld_scripts.length : ℤ)),
                     ("schema_types", .arr schema_types_found),
                     ("microdata_count", .num (soup.microdataCount : ℤ))] }
    if schema_types_found.isEmpty then .ok (assemble findings)
    else
      match allStrings (schema_types_found.take 5) with
      | none => .error .typeError
      | some strs =>
        .ok (assemble (findings ++
          ["Schema types found: " ++ String.intercalate ", " strs]))

/-- Errors a fetch can surface, per the external fetcher interface:
transport failures (timeout, connection, TLS) raised by `session.get`, and
the HTTP status error raised by `response.raise_for_status()`. -/
inductive FetchError where
  | timeout : FetchError
  | connection : FetchError
  | tls : FetchError
  | httpStatus (code : ℕ) : FetchError
deriving DecidableEq

/-- Model of `requests.Response.raise_for_status`: raises exactly for
4xx and 5xx status codes. -/
def raise_for_status (status : ℕ) : Except FetchError Unit :=
  if 400 ≤ status ∧ status < 600 then .error (.httpStatus status) else .ok ()

/-- What a call to `WebsiteAuditor.audit` can raise: a fetch failure
(transport error from `session.get`, or the HTTP status error from
`raise_for_status`), or an uncaught Python exception escaping an
analyzer. -/
inductive AuditException where
  | fetch (e : FetchError) : AuditException
  | python (e : PyErr) : AuditException
deriving DecidableEq

/-- Assembly of the `WebsiteAudit` aggregate from one fetched response:
the bottom half of `WebsiteAuditor.audit`, invoking the nine total
analyzers on the shared parsed document; the (fallible) schema analyzer
result is passed in. -/
def buildAudit (url : String) (response : Response) (start_time : ℚ)
    (duration_ms : ℤ) (schemaResult : AuditResult) : WebsiteAudit :=
  { url := url,
    timestamp := start_time,
    duration_ms := duration_ms,
    title := audit_title response.doc,
    meta_description := audit_meta_description response.doc,
    headings := audit_headings response.doc,
    images := audit_images response.doc,
    mobile := audit_mobile response.doc response,
    ssl_security := audit_ssl_security url response,
    performance := audit_performance response.contentLength response.doc,
    links := audit_links response.doc url,
    open_graph := audit_open_graph response.doc,
    schema := schemaResult }

/-- Orchestrator (`WebsiteAuditor.audit`): the fetch outcome (the external
effect of `session.get`) and the two clock readings are inputs.  A
transport error propagates; `raise_for_status` raises an HTTP status
error; otherwise the ten analyzers run over the parsed document.  The
source evaluates the ten analyzer calls as constructor arguments in
declaration order, with schema last; when the schema analyzer raises, the
nine earlier results are discarded and the exception escapes `audit`, so
the model checks the one fallible analyzer and otherwise assembles the
aggregate. -/
def WebsiteAuditor.audit (url : String) (fetched : Except FetchError Response)
    (start_time end_time : ℚ) : Except AuditException WebsiteAudit :=
  match fetched with
  | .error e => .error (.fetch e)
  | .ok response =>
    match raise_for_status response.status with
    | .error e => .error (.fetch e)
    | .ok _ =>
      let duration_ms := pyTrunc ((end_time - start_time) * 1000)
      match audit_schema response.doc with
      | .error e => .error (.python e)
      | .ok schemaResult =>
        .ok (buildAudit url response start_time duration_ms schemaResult)

/-- The ordered mapping of the ten fixed category keys to their results,
as the reporters and the JSON emitter enumerate them. -/
def WebsiteAudit.categories (w : WebsiteAudit) : List (String × AuditResult) :=
  [("title", w.title),
   ("meta_description", w.meta_description),
   ("headings", w.headings),
   ("images", w.images),
   ("mobile", w.mobile),
   ("ssl_security", w.ssl_security),
   ("performance", w.performance),
   ("links", w.links),
   ("open_graph", w.open_graph),
   ("schema", w.schema)]

/-- One category entry of the JSON report
(`site_roast/reporter.py`, `JsonReporter._category_to_dict`).  The roast
text generator is randomized and external; it enters as the function
parameter `roastFn`.  With `no_roast` set the roast is the empty string and
the `roast` key is omitted (the source only adds the key for truthy
roasts); `recommendations` are serialized only in verbose mode. -/
def category_to_dict (no_roast verbose : Bool) (roastFn : ℕ → String → String)
    (name : String) (result : AuditResult) : Json :=
  let roast := if ¬ no_roast then roastFn result.score name else ""
  Json.obj
    ([("name", .str name),
      ("score", .num (result.score : ℤ)),
      ("max_score", .num (result.max_score : ℤ)),
      ("findings", .arr (result.findings.map .str)),
      ("recommendations",
       .arr ((if verbose then result.recommendations else []).map .str)),
      ("raw_data", .obj result.raw_data)] ++
     (if roast ≠ "" then [("roast", .str roast)] else []))

/-- The JSON report (`site_roast/reporter.py`, `JsonReporter.generate`)
as the JSON value `json.dumps` receives; `json.dumps` followed by
`json.loads` is the identity on this value (Python standard library). -/
def JsonReporter.generate (no_roast verbose : Bool) (roastFn : ℕ → String → String)
    (audit : WebsiteAudit) : Json :=
  Json.obj
    [("url", .str audit.url),
     ("timestamp", .flt audit.timestamp),
     ("duration_ms", .num audit.duration_ms),
     ("overall_score", .num audit.get_overall_score),
     ("grade", .str audit.get_grade),
     ("categories", .obj
       [("title", category_to_dict no_roast verbose roastFn "Title Tag" audit.title),
        ("meta_description",
         category_to_dict no_roast verbose roastFn "Meta Description" audit.meta_description),
        ("headings", category_to_dict no_roast verbose roastFn "Headings" audit.headings),
        ("images", category_to_dict no_roast verbose roastFn "Images" audit.images),
        ("mobile", category_to_dict no_roast verbose roastFn "Mobile" audit.mobile),
        ("ssl_security",
         category_to_dict no_roast verbose roastFn "SSL/Security" audit.ssl_security),
        ("performance",
         category_to_dict no_roast verbose roastFn "Performance" audit.performance),
        ("links", category_to_dict no_roast verbose roastFn "Links" audit.links),
        ("open_graph",
         category_to_dict no_roast verbose roastFn "Open Graph" audit.open_graph),
        ("schema",
         category_to_dict no_roast verbose roastFn "Schema/Structured Data" audit.schema)])]

/-- Read back a serialized list of strings. -/
def strListOfJson : List Json → Option (List String)
  | [] => some []
  | .str s :: rest => (strListOfJson rest).map (fun l => s :: l)
  | _ => none

/-- The fields of one re-parsed category the round-trip property speaks
about: score, findings, recommendations. -/
structure ParsedCategory where
  score : ℤ
  findings : List String
  recommendations : List String
deriving DecidableEq

/-- Re-parse one category dictionary of the emitted JSON. -/
def parseCategory : Json → Option ParsedCategory
  | .obj (("name", _) :: ("score", .num s) :: ("max_score", _) ::
          ("findings", .arr fs) :: ("recommendations", .arr rs) :: _) =>
    match strListOfJson fs, strListOfJson rs with
    | some fstrs, some rstrs => some ⟨s, fstrs, rstrs⟩
    | _, _ => none
  | _ => none

/-- Re-parse every category of the emitted `categories` object. -/
def parseCategories : List (String × Json) → Option (List (String × ParsedCategory))
  | [] => some []
  | (key, j) :: rest =>
    match parseCategory j, parseCategories rest with
    | some c, some cs => some ((key, c) :: cs)
    | _, _ => none

/-- Re-parse the emitted report down to its per-category scores, findings
and recommendations. -/
def parseReport : Json → Option (List (String × ParsedCategory))
  | .obj [("url", _), ("timestamp", _), ("duration_ms", _), ("overall_score", _),
          ("grade", _), ("categories", .obj cats)] => parseCategories cats
  | _ => none

/-- Modelled from the spec: the fixed, ordered 13-bucket grade threshold
table (descending thresholds, `F` as the final bucket). -/
def gradeTable : List (ℤ × String) :=
  [(97, "A+"), (93, "A"), (90, "A-"), (87, "B+"), (83, "B"), (80, "B-"),
   (77, "C+"), (73, "C"), (70, "C-"), (67, "D+"), (63, "D"), (60, "D-")]

/-- Modelled from the spec: ordered descending-threshold lookup over a
grade table, defaulting to `F`. -/
def lookupGrade (score : ℤ) : List (ℤ × String) → String
  | [] => "F"
  | (t, g) :: rest => if score ≥ t then g else lookupGrade score rest

/-- Modelled from the claim text for the images analyzer: zero images
score 70; otherwise base `round(100 * withAlt / total)` with standard
round-half-up, then a flat 10 when any alt attribute is missing and a flat
5 when any alt is present but blank, each subtraction floored at 0. -/
def imagesClaimedScore (soup : Doc) : ℕ :=
  if soup.imgs.length = 0 then 70
  else
    let total := soup.imgs.length
    let missing := soup.imgs.countP (fun img => img.alt = none)
    let empty := soup.imgs.countP (fun img =>
      match img.alt with
      | none => false
      | some a => pyStrip a = "")
    let withAlt := total - missing - empty
    let base := roundHalfUpDiv (100 * withAlt) total
    let s1 := if missing > 0 then base - 10 else base
    if empty > 0 then s1 - 5 else s1

/-- The amended images formula: as `imagesClaimedScore`, but with the base
score computed the way CPython computes `int(with_alt / total * 100)` —
the correctly rounded binary64 quotient, multiplied by 100 with correct
rounding, truncated to an integer (`pyFloatPct`) — instead of rounded
half-up on the exact rational. -/
def imagesFloatScore (soup : Doc) : ℕ :=
  if soup.imgs.length = 0 then 70
  else
    let total := soup.imgs.length
    let missing := soup.imgs.countP (fun img => img.alt = none)
    let empty := soup.imgs.countP (fun img =>
      match img.alt with
      | none => false
      | some a => pyStrip a = "")
    let withAlt := total - missing - empty
    let base := if total > 0 then pyFloatPct withAlt total else 100
    let s1 := if missing > 0 then base - 10 else base
    if empty > 0 then s1 - 5 else s1

/-- The per-category results of an audit outcome, when the audit
succeeded; `none` on a raised exception. -/
def auditOutcomeCategories : Except AuditException WebsiteAudit →
    Option (List (String × AuditResult))
  | .error _ => none
  | .ok w => some w.categories

/-! ## Lemmas about the binary64 model

The chain below establishes `pyFloatPct w t ≤ 100` for `w ≤ t`: the
rounded significand of `w / t` is at most `2 ^ 53` and over-approximates
the quotient by at most one grid step, so `100` times it stays strictly
below `101` units of the final grid, and the truncation is at most 100. -/

theorem bitLenAux_spec :
    ∀ fuel n : ℕ, n ≤ fuel → 1 ≤ n →
      2 ^ (bitLenAux fuel n - 1) ≤ n ∧ n < 2 ^ bitLenAux fuel n ∧ 1 ≤ bitLenAux fuel n := by
  intro fuel
  induction fuel with
  | zero => intro n h1 h2; omega
  | succ fuel ih =>
    intro n hle hpos
    simp only [bitLenAux]
    rw [if_neg (by omega)]
    by_cases h2 : n = 1
    · subst h2
      have hz : bitLenAux fuel 0 = 0 := by cases fuel <;> rfl
      norm_num [hz]
    · have hn2 : 1 ≤ n / 2 := by omega
      have hf : n / 2 ≤ fuel := by omega
      obtain ⟨ih1, ih2, ih3⟩ := ih (n / 2) hf hn2
      set L := bitLenAux fuel (n / 2) with hL
      have e1 : 2 ^ L = 2 * 2 ^ (L - 1) := by
        conv_lhs => rw [show L = L - 1 + 1 by omega]
        rw [pow_succ]
        ring
      have e2 : 2 ^ (L + 1) = 2 * 2 ^ L := by rw [pow_succ]; ring
      simp only [Nat.add_sub_cancel]
      omega

/-- `bitLen n` is the position of the leading binary digit:
`2 ^ (bitLen n - 1) ≤ n < 2 ^ bitLen n` for `n ≥ 1`. -/
theorem bitLen_spec (n : ℕ) (h : 1 ≤ n) :
    2 ^ (bitLen n - 1) ≤ n ∧ n < 2 ^ bitLen n ∧ 1 ≤ bitLen n :=
  bitLenAux_spec n n le_rfl h

theorem bitLen_le_of_lt_pow (n k : ℕ) (h : n < 2 ^ k) : bitLen n ≤ k := by
  rcases Nat.eq_zero_or_pos n with rfl | hp
  · have : bitLen 0 = 0 := rfl
    omega
  · obtain ⟨h1, _, h3⟩ := bitLen_spec n hp
    by_contra hc
    push_neg at hc
    have : 2 ^ k ≤ 2 ^ (bitLen n - 1) := Nat.pow_le_pow_right (by norm_num) (by omega)
    omega

theorem bitLen_mono (a b : ℕ) (h : a ≤ b) : bitLen a ≤ bitLen b := by
  rcases Nat.eq_zero_or_pos b with rfl | hbp
  · have ha : a = 0 := by omega
    subst ha
    exact le_rfl
  obtain ⟨_, hb2, _⟩ := bitLen_spec b hbp
  exact bitLen_le_of_lt_pow a (bitLen b) (by omega)

theorem pyRoundHalfEven_nonneg (n d : ℤ) (hn : 0 ≤ n) (hd : 0 < d) :
    0 ≤ pyRoundHalfEven n d := by
  have hdn : ¬ d < 0 := by omega
  unfold pyRoundHalfEven
  dsimp only
  simp only [if_neg hdn]
  have hq : 0 ≤ n / d := Int.ediv_nonneg hn hd.le
  split_ifs <;> omega

/-- Rounding to nearest overshoots the exact value by less than one
denominator unit. -/
theorem pyRoundHalfEven_le (n d : ℤ) (hd : 0 < d) :
    pyRoundHalfEven n d * d ≤ n + d := by
  have hdn : ¬ d < 0 := by omega
  unfold pyRoundHalfEven
  dsimp only
  simp only [if_neg hdn]
  have hqr := Int.ediv_add_emod n d
  have hr0 : 0 ≤ n % d := Int.emod_nonneg n (by omega)
  have hrd : n % d < d := Int.emod_lt_of_pos n hd
  have key : ∀ r : ℤ, r ≤ n / d + 1 → r * d ≤ n + d := by
    intro r hr
    have h1 : r * d ≤ (n / d + 1) * d := mul_le_mul_of_nonneg_right hr hd.le
    have h2 : (n / d + 1) * d = d * (n / d) + d := by ring
    omega
  split_ifs <;> apply key <;> omega

theorem qPowLe_nonpos_iff (d : ℤ) (w t : ℕ) (hd : d ≤ 0) :
    qPowLe d w t = true ↔ t ≤ w * 2 ^ (-d).toNat := by
  unfold qPowLe
  rcases eq_or_lt_of_le hd with h0 | hneg
  · rw [h0]
    norm_num
  · rw [if_neg (by omega)]
    simp

theorem qFloorLog2_le_zero (w t : ℕ) (hwt : w ≤ t) :
    qFloorLog2 w t ≤ 0 := by
  have hm := bitLen_mono w t hwt
  unfold qFloorLog2
  dsimp only
  split_ifs <;> omega

/-- `w / t < 2 ^ (⌊log2 (w / t)⌋ + 1)`, in integer form. -/
theorem qFloorLog2_upper (w t : ℕ) (hw : 1 ≤ w) (ht : 1 ≤ t) (hwt : w ≤ t) :
    w * 2 ^ (-(qFloorLog2 w t)).toNat < 2 * t := by
  obtain ⟨ha1, ha2, ha3⟩ := bitLen_spec w hw
  obtain ⟨hb1, hb2, hb3⟩ := bitLen_spec t ht
  have hm := bitLen_mono w t hwt
  have hd : (bitLen w : ℤ) - bitLen t ≤ 0 := by omega
  unfold qFloorLog2
  dsimp only
  split_ifs with htest
  · rw [qPowLe_nonpos_iff _ _ _ hd] at htest
    have hV : (-((bitLen w : ℤ) - bitLen t)).toNat = bitLen t - bitLen w := by omega
    rw [hV]
    have h1 : w * 2 ^ (bitLen t - bitLen w) < 2 ^ bitLen w * 2 ^ (bitLen t - bitLen w) :=
      mul_lt_mul_of_pos_right ha2 (by positivity)
    have hpow : 2 ^ bitLen w * 2 ^ (bitLen t - bitLen w) = 2 ^ bitLen t := by
      rw [← pow_add]
      congr 1
      omega
    have h2 : 2 ^ bitLen t = 2 * 2 ^ (bitLen t - 1) := by
      conv_lhs => rw [show bitLen t = bitLen t - 1 + 1 by omega]
      rw [pow_succ]
      ring
    omega
  · rw [qPowLe_nonpos_iff _ _ _ hd] at htest
    have hlt : w * 2 ^ (-((bitLen w : ℤ) - bitLen t)).toNat < t := by omega
    have hV2 : (-((bitLen w : ℤ) - bitLen t - 1)).toNat =
        (-((bitLen w : ℤ) - bitLen t)).toNat + 1 := by omega
    rw [hV2]
    have hpow : w * 2 ^ ((-((bitLen w : ℤ) - bitLen t)).toNat + 1) =
        w * 2 ^ (-((bitLen w : ℤ) - bitLen t)).toNat * 2 := by
      rw [pow_succ]
      ring
    omega

/-- Bounds on the rounded binary64 representation of `w / t ≤ 1`: the
significand is at most `2 ^ 53`, the exponent lies in the binary64 grid
range, and the value over-approximates `w / t` by at most one grid
step. -/
theorem flPos_bounds (w t : ℕ) (hw : 1 ≤ w) (ht : 1 ≤ t) (hwt : w ≤ t) :
    0 ≤ (flPos w t).1 ∧ (flPos w t).1 ≤ 2 ^ 53 ∧
      (flPos w t).2 ≤ -52 ∧ -1074 ≤ (flPos w t).2 ∧
      (flPos w t).1 * (t : ℤ) ≤ (w : ℤ) * 2 ^ (-(flPos w t).2).toNat + t := by
  have he0 := qFloorLog2_le_zero w t hwt
  have heU := qFloorLog2_upper w t hw ht hwt
  unfold flPos
  dsimp only
  set e := qFloorLog2 w t with hE
  set s := max e (-1022) - 52 with hs
  have hs52 : s ≤ -52 := by omega
  have hs74 : -1074 ≤ s := by omega
  rw [if_neg (show ¬ 0 ≤ s by omega)]
  set S := (-s).toNat with hS
  have htZ : (0 : ℤ) < (t : ℤ) := by exact_mod_cast ht
  have hm0 : 0 ≤ pyRoundHalfEven ((w : ℤ) * 2 ^ S) t :=
    pyRoundHalfEven_nonneg _ _ (by positivity) htZ
  have hmle := pyRoundHalfEven_le ((w : ℤ) * 2 ^ S) t htZ
  have hWS : w * 2 ^ S < t * 2 ^ 53 := by
    by_cases hcl : -1022 ≤ e
    · have hSV : S = (-e).toNat + 52 := by omega
      rw [hSV, pow_add]
      nlinarith [heU]
    · have hS74 : S = 1074 := by omega
      rw [hS74]
      by_cases hVbig : 1074 ≤ (-e).toNat
      · have hmono : (2 : ℕ) ^ 1074 ≤ 2 ^ (-e).toNat :=
          Nat.pow_le_pow_right (by norm_num) hVbig
        have h1 : w * 2 ^ 1074 ≤ w * 2 ^ (-e).toNat :=
          Nat.mul_le_mul_left w hmono
        have h2 : 2 * t ≤ t * 2 ^ 53 := by
          calc 2 * t = t * 2 := by ring
            _ ≤ t * 2 ^ 53 := Nat.mul_le_mul_left t (by norm_num)
        linarith [h1, heU, h2]
      · have hsplit : w * 2 ^ 1074 = w * 2 ^ (-e).toNat * 2 ^ (1074 - (-e).toNat) := by
          rw [mul_assoc, ← pow_add,
            show (-e).toNat + (1074 - (-e).toNat) = 1074 from by omega]
        have h1 : w * 2 ^ (-e).toNat * 2 ^ (1074 - (-e).toNat) <
            2 * t * 2 ^ (1074 - (-e).toNat) :=
          mul_lt_mul_of_pos_right heU (by positivity)
        have h2 : (2 : ℕ) ^ (1074 - (-e).toNat) ≤ 2 ^ 51 :=
          Nat.pow_le_pow_right (by norm_num) (by omega)
        have h3 : 2 * t * 2 ^ (1074 - (-e).toNat) ≤ 2 * t * 2 ^ 51 :=
          Nat.mul_le_mul_left (2 * t) h2
        have h4 : 2 * t * 2 ^ 51 = t * 2 ^ 52 := by
          rw [show (52 : ℕ) = 51 + 1 by norm_num, pow_succ]
          ring
        have h5 : t * 2 ^ 52 ≤ t * 2 ^ 53 := Nat.mul_le_mul_left t (by norm_num)
        linarith [hsplit, h1, h3, h4, h5]
  have hWSZ : (w : ℤ) * 2 ^ S < (t : ℤ) * 2 ^ 53 := by exact_mod_cast hWS
  have hm53 : pyRoundHalfEven ((w : ℤ) * 2 ^ S) t ≤ 2 ^ 53 := by
    have h1 : pyRoundHalfEven ((w : ℤ) * 2 ^ S) t * t < (2 ^ 53 + 1) * t := by
      nlinarith [hmle, hWSZ]
    have h2 := lt_of_mul_lt_mul_right h1 htZ.le
    omega
  exact ⟨hm0, hm53, hs52, hs74, hmle⟩

/-- `int(w / t * 100)` never exceeds 100 when `w ≤ t`: even though the
rounded quotient can exceed the exact one (`29 / 50` rounds up to
`0.58000...000284...`), the excess is far too small to push the product
past the next integer. -/
theorem pyFloatPct_le_100 (w t : ℕ) (ht : 1 ≤ t) (hwt : w ≤ t) :
    pyFloatPct w t ≤ 100 := by
  unfold pyFloatPct
  split_ifs with hw0
  · omega
  have hw : 1 ≤ w := by omega
  obtain ⟨hm0, hm53, hsle, hsge, hval⟩ := flPos_bounds w t hw ht hwt
  dsimp only
  set m := (flPos w t).1 with hm
  set s := (flPos w t).2 with hsdef
  have hn : ((100 * m).toNat : ℤ) = 100 * m := Int.toNat_of_nonneg (by linarith)
  set n := (100 * m).toNat with hndef
  by_cases hn0 : n = 0
  · simp [hn0, flDyadic, dyadicFloor]
  have hn1 : 1 ≤ n := by omega
  have hnlt : n < 2 ^ 60 := by
    have h1 : (n : ℤ) ≤ 100 * 2 ^ 53 := by rw [hn]; linarith
    have h2 : (100 : ℤ) * 2 ^ 53 < 2 ^ 60 := by norm_num
    exact_mod_cast lt_of_le_of_lt h1 h2
  have hbit : bitLen n ≤ 60 := bitLen_le_of_lt_pow n 60 hnlt
  unfold flDyadic
  rw [if_neg hn0]
  dsimp only
  set g := max (s + (bitLen n : ℤ) - 1) (-1022) - 52 with hg
  have hg45 : g ≤ -45 := by omega
  have hfloor : ∀ y : ℤ, dyadicFloor y g = y / 2 ^ (-g).toNat := by
    intro y
    unfold dyadicFloor
    rw [if_neg (by omega)]
  have htZ : (0 : ℤ) < (t : ℤ) := by exact_mod_cast ht
  have hP52 : (2 : ℤ) ^ 52 ≤ 2 ^ (-s).toNat :=
    pow_le_pow_right₀ (by norm_num) (by omega)
  have hmS : m ≤ 2 ^ (-s).toNat + 1 := by
    have hwle : (w : ℤ) ≤ (t : ℤ) := by exact_mod_cast hwt
    have h1 : (w : ℤ) * 2 ^ (-s).toNat ≤ (t : ℤ) * 2 ^ (-s).toNat :=
      mul_le_mul_of_nonneg_right hwle (by positivity)
    have h2 : m * (t : ℤ) ≤ (2 ^ (-s).toNat + 1) * t := by nlinarith [hval]
    exact le_of_mul_le_mul_right h2 htZ
  have hkeyle : (n : ℤ) ≤ 100 * 2 ^ (-s).toNat + 100 := by
    rw [hn]
    linarith
  have hkey : (n : ℤ) < 101 * 2 ^ (-s).toNat := by linarith
  split_ifs with hbr
  · dsimp only
    rw [hfloor]
    have hGpow : (2 : ℤ) ^ (-g).toNat = 2 ^ (-s).toNat * 2 ^ (s - g).toNat := by
      rw [← pow_add]
      congr 1
      omega
    have hdiv : (n : ℤ) * 2 ^ (s - g).toNat / 2 ^ (-g).toNat < 101 := by
      rw [Int.ediv_lt_iff_lt_mul (by positivity)]
      calc (n : ℤ) * 2 ^ (s - g).toNat < 101 * 2 ^ (-s).toNat * 2 ^ (s - g).toNat :=
            mul_lt_mul_of_pos_right hkey (by positivity)
        _ = 101 * 2 ^ (-g).toNat := by rw [hGpow]; ring
    exact Int.toNat_le.mpr (by omega)
  · dsimp only
    rw [hfloor]
    push_neg at hbr
    have hk1 : (2 : ℤ) ^ (g - s).toNat ≤ 2 ^ ((-s).toNat - 45) :=
      pow_le_pow_right₀ (by norm_num) (by omega)
    have hk2 : (2 : ℤ) ^ (-s).toNat = 2 ^ ((-s).toNat - 45) * 2 ^ 45 := by
      rw [← pow_add]
      congr 1
      omega
    have h1pow : (1 : ℤ) ≤ 2 ^ ((-s).toNat - 45) := by
      exact_mod_cast Nat.one_le_two_pow
    have hkey2 : (n : ℤ) + 2 ^ (g - s).toNat < 101 * 2 ^ (-s).toNat := by
      nlinarith [hkeyle, hk1, hk2, h1pow]
    have hSpow : (2 : ℤ) ^ (-s).toNat = 2 ^ (-g).toNat * 2 ^ (g - s).toNat := by
      rw [← pow_add]
      congr 1
      omega
    have hRHE := pyRoundHalfEven_le (n : ℤ) (2 ^ (g - s).toNat) (by positivity)
    have hy2 : pyRoundHalfEven (n : ℤ) (2 ^ (g - s).toNat) * 2 ^ (g - s).toNat <
        101 * 2 ^ (-g).toNat * 2 ^ (g - s).toNat := by
      calc pyRoundHalfEven (n : ℤ) (2 ^ (g - s).toNat) * 2 ^ (g - s).toNat
          ≤ (n : ℤ) + 2 ^ (g - s).toNat := hRHE
        _ < 101 * 2 ^ (-s).toNat := hkey2
        _ = 101 * 2 ^ (-g).toNat * 2 ^ (g - s).toNat := by rw [hSpow]; ring
    have hylt : pyRoundHalfEven (n : ℤ) (2 ^ (g - s).toNat) < 101 * 2 ^ (-g).toNat :=
      lt_of_mul_lt_mul_right hy2 (by positivity)
    have hdiv2 : pyRoundHalfEven (n : ℤ) (2 ^ (g - s).toNat) / 2 ^ (-g).toNat < 101 := by
      rw [Int.ediv_lt_iff_lt_mul (by positivity)]
      exact hylt
    exact Int.toNat_le.mpr (by omega)

/-! ## Clamp invariant helper lemmas -/

theorem audit_title_score_le (soup : Doc) : (audit_title soup).score ≤ 100 := by
  unfold audit_title
  cases soup.titleText with
  | none => simp
  | some t => dsimp only; split_ifs <;> simp

theorem audit_meta_description_score_le (soup : Doc) :
    (audit_meta_description soup).score ≤ 100 := by
  unfold audit_meta_description
  cases soup.metaDescription with
  | none => simp
  | some a => dsimp only; split_ifs <;> simp

theorem audit_headings_score_le (soup : Doc) : (audit_headings soup).score ≤ 100 := by
  unfold audit_headings
  dsimp only
  split_ifs <;> simp

/-- The score of the images analyzer coincides with the float-base
formula `imagesFloatScore`. -/
theorem audit_images_score_eq (soup : Doc) :
    (audit_images soup).score = imagesFloatScore soup := by
  unfold audit_images imagesFloatScore
  dsimp only
  split_ifs <;> first | rfl | omega

theorem imagesFloatScore_le (soup : Doc) : imagesFloatScore soup ≤ 100 := by
  unfold imagesFloatScore
  dsimp only
  split_ifs with h
  · omega
  all_goals first
    | omega
    | { have hb := pyFloatPct_le_100
          (soup.imgs.length -
            soup.imgs.countP (fun img => decide (img.alt = none)) -
            soup.imgs.countP (fun img =>
              match img.alt with
              | none => false
              | some a => decide (pyStrip a = "")))
          soup.imgs.length (by omega) (by omega)
        omega }

theorem audit_images_score_le (soup : Doc) : (audit_images soup).score ≤ 100 := by
  rw [audit_images_score_eq]
  exact imagesFloatScore_le soup

theorem audit_mobile_score_le (soup : Doc) (response : Response) :
    (audit_mobile soup response).score ≤ 100 := by
  unfold audit_mobile
  cases soup.viewport with
  | none => dsimp only; split_ifs <;> simp
  | some a => dsimp only; split_ifs <;> simp

theorem audit_ssl_security_score_le (url : String) (response : Response) :
    (audit_ssl_security url response).score ≤ 100 := by
  unfold audit_ssl_security
  dsimp only
  split_ifs <;> (simp; try omega)

theorem audit_performance_score_le (content_length : ℕ) (soup : Doc) :
    (audit_performance content_length soup).score ≤ 100 := by
  unfold audit_performance
  dsimp only
  split_ifs <;> simp

theorem audit_links_score_le (soup : Doc) (base_url : String) :
    (audit_links soup base_url).score ≤ 100 := by
  unfold audit_links
  dsimp only
  split_ifs <;> simp

theorem audit_open_graph_score_le (soup : Doc) :
    (audit_open_graph soup).score ≤ 100 := by
  unfold audit_open_graph
  dsimp only
  have h5 := List.length_filterMap_le (fun (t : String × String × Option (Option String)) =>
    match t.2.2 with
    | some (some c) => if c ≠ "" then some (t.1, c) else none
    | _ => none) (ogTagList soup)
  have hlen : (ogTagList soup).length = 5 := rfl
  rw [hlen]
  omega

/-- Score of every result the schema analyzer returns: a function of the
JSON-LD block count alone. -/
theorem audit_schema_ok_score (soup : Doc) (res : AuditResult)
    (h : audit_schema soup = .ok res) :
    res.score = if soup.jsonLd.length = 0 then 0
                else min 100 (40 + soup.jsonLd.length * 20) := by
  unfold audit_schema at h
  dsimp only at h
  split_ifs at h with h0
  all_goals try split at h
  all_goals try exact Except.noConfusion h
  all_goals injection h with h'
  all_goals subst h'
  all_goals simp [h0]

theorem audit_schema_score_le (soup : Doc) (res : AuditResult)
    (h : audit_schema soup = .ok res) : res.score ≤ 100 := by
  rw [audit_schema_ok_score soup res h]
  split_ifs <;> omega

/-- C1: for every analyzer of the ten categories and every input document
and response (including the empty document, huge documents, and elements
with missing attributes), the score of the returned category result
satisfies `0 ≤ score ≤ 100`. -/
theorem c1_all_analyzer_scores_clamped (soup : Doc) (response : Response)
    (url : String) (content_length : ℕ) :
    (0 ≤ (audit_title soup).score ∧ (audit_title soup).score ≤ 100) ∧
    (0 ≤ (audit_meta_description soup).score ∧
      (audit_meta_description soup).score ≤ 100) ∧
    (0 ≤ (audit_headings soup).score ∧ (audit_headings soup).score ≤ 100) ∧
    (0 ≤ (audit_images soup).score ∧ (audit_images soup).score ≤ 100) ∧
    (0 ≤ (audit_mobile soup response).score ∧
      (audit_mobile soup response).score ≤ 100) ∧
    (0 ≤ (audit_ssl_security url response).score ∧
      (audit_ssl_security url response).score ≤ 100) ∧
    (0 ≤ (audit_performance content_length soup).score ∧
      (audit_performance content_length soup).score ≤ 100) ∧
    (0 ≤ (audit_links soup url).score ∧ (audit_links soup url).score ≤ 100) ∧
    (0 ≤ (audit_open_graph soup).score ∧ (audit_open_graph soup).score ≤ 100) ∧
    (∀ res : AuditResult, audit_schema soup = .ok res →
      0 ≤ res.score ∧ res.score ≤ 100) :=
  ⟨⟨Nat.zero_le _, audit_title_score_le soup⟩,
   ⟨Nat.zero_le _, audit_meta_description_score_le soup⟩,
   ⟨Nat.zero_le _, audit_headings_score_le soup⟩,
   ⟨Nat.zero_le _, audit_images_score_le soup⟩,
   ⟨Nat.zero_le _, audit_mobile_score_le soup response⟩,
   ⟨Nat.zero_le _, audit_ssl_security_score_le url response⟩,
   ⟨Nat.zero_le _, audit_performance_score_le content_length soup⟩,
   ⟨Nat.zero_le _, audit_links_score_le soup url⟩,
   ⟨Nat.zero_le _, audit_open_graph_score_le soup⟩,
   fun res h => ⟨Nat.zero_le _, audit_schema_score_le soup res h⟩⟩

/-- The result the schema analyzer returns on any document with no
JSON-LD blocks. -/
def schemaZeroResult : AuditResult :=
  { score := 0,
    findings := ["Found 0 JSON-LD script(s)", "No structured data found"],
    recommendations := ["Add JSON-LD structured data for better search visibility",
                        "Consider Organization, WebSite, or Article schema types"] }

/-- Witness for C1 at a concrete input, discharging the success hypothesis
of the schema conjunct. -/
theorem c1_all_analyzer_scores_clamped_witness :
    0 ≤ schemaZeroResult.score ∧ schemaZeroResult.score ≤ 100 :=
  (c1_all_analyzer_scores_clamped {} {} "https://example.com" 0).2.2.2.2.2.2.2.2.2
    schemaZeroResult rfl

/-- A concrete audit whose ten category scores are nine times 75 and one
70, so they sum to 745 and their mean is 74.5. -/
def w745 : WebsiteAudit :=
  { url := "https://example.com", timestamp := 0, duration_ms := 0,
    title := { score := 75 }, meta_description := { score := 75 },
    headings := { score := 75 }, images := { score := 75 },
    mobile := { score := 75 }, ssl_security := { score := 75 },
    performance := { score := 75 }, links := { score := 75 },
    open_graph := { score := 75 }, schema := { score := 70 } }

/-- C2 counterexample: on the audit `w745` the ten scores sum to 745, the
mean 74.5 ends in .5, yet `get_overall_score` returns 74 while round-half-up
of the mean is 75 — Python 3 `round` is round-half-to-even, so the claimed
"rounded upward" behaviour fails. -/
theorem c2_counterexample :
    w745.scores.sum = 745 ∧
    w745.get_overall_score = 74 ∧
    roundHalfUpDiv w745.scores.sum w745.scores.length = 75 ∧
    w745.get_overall_score ≠ (roundHalfUpDiv w745.scores.sum w745.scores.length : ℤ) :=
  ⟨by decide, by decide, by decide, by decide⟩

/-- C2 (amended): for every `WebsiteAudit` the overall score equals the
arithmetic mean of the ten category scores rounded half-to-even (Python 3
`round`): a mean ending in .5 rounds to the even neighbour, and the overall
score agrees with `ScoreCalculator.calculate_average` on the score list. -/
theorem c2_overall_score_half_even_mean (w : WebsiteAudit) :
    w.scores.length = 10 ∧
    w.get_overall_score =
      (if (w.scores.sum : ℤ) % 10 < 5 then (w.scores.sum : ℤ) / 10
       else if 5 < (w.scores.sum : ℤ) % 10 then (w.scores.sum : ℤ) / 10 + 1
       else if ((w.scores.sum : ℤ) / 10) % 2 = 0 then (w.scores.sum : ℤ) / 10
       else (w.scores.sum : ℤ) / 10 + 1) ∧
    w.get_overall_score = ScoreCalculator.calculate_average w.scores := by
  have hlen : w.scores.length = 10 := rfl
  have hne : w.scores ≠ [] := by simp [WebsiteAudit.scores]
  refine ⟨hlen, ?_, ?_⟩
  · unfold WebsiteAudit.get_overall_score pyRoundHalfEven
    rw [hlen]
    dsimp only
    split_ifs <;> omega
  · unfold ScoreCalculator.calculate_average
    rw [if_neg hne]
    rfl

/-- C3: for every integer score, the grade function is the ordered
13-bucket threshold lookup over `gradeTable` (97 to A+ down to 60 to D-,
else F); in particular grade 96 is A, 97 is A+, 59 is F, 60 is D-, and
`WebsiteAudit.get_grade` agrees with `score_to_grade` on the overall
score. -/
theorem c3_grade_threshold_lookup :
    (∀ s : ℤ, ScoreCalculator.score_to_grade s = lookupGrade s gradeTable) ∧
    ScoreCalculator.score_to_grade 96 = "A" ∧
    ScoreCalculator.score_to_grade 97 = "A+" ∧
    ScoreCalculator.score_to_grade 59 = "F" ∧
    ScoreCalculator.score_to_grade 60 = "D-" ∧
    (∀ w : WebsiteAudit, w.get_grade = ScoreCalculator.score_to_grade w.get_overall_score) := by
  refine ⟨?_, by decide, by decide, by decide, by decide, fun w => rfl⟩
  intro s
  simp [ScoreCalculator.score_to_grade, gradeTable, lookupGrade]

/-- A document with three images: two with alt text, one missing the alt
attribute. -/
def imagesDoc3 : Doc := { imgs := [{ alt := some "a" }, { alt := some "b" }, {}] }

/-- C4 counterexample: on a document with 3 images, 2 of them with alt
text and 1 missing the attribute, the analyzer scores
`int(2/3 * 100) - 10 = 56`, while the claimed formula
`round(100 * 2/3) - 10` gives 57: the base score is truncated, not
rounded.  Moreover the truncation acts on the binary64 product, not on
the exact rational: `int(29/50 * 100)` is 57 (the double of `29/50 * 100`
is just below 58), while the exact floor `⌊100 * 29 / 50⌋` is 58. -/
theorem c4_counterexample :
    (audit_images imagesDoc3).score = 56 ∧
    imagesClaimedScore imagesDoc3 = 57 ∧
    (audit_images imagesDoc3).score ≠ imagesClaimedScore imagesDoc3 ∧
    pyFloatPct 29 50 = 57 ∧
    (100 * 29) / 50 = 58 :=
  ⟨by decide, by decide, by decide, by decide, by decide⟩

/-- C4 (amended): for every document, the images analyzer returns 70 when
there are no images; otherwise its score is `int(alt_coverage * 100)`
computed in binary64 float arithmetic — the correctly rounded double
`imagesWithNonEmptyAlt / totalImages`, times 100 with correct rounding,
truncated to an integer — minus a flat 10 when at least one image lacks
the alt attribute and minus a flat 5 when at least one image has a
present-but-blank alt, each subtraction floored at 0 — exactly
`imagesFloatScore`. -/
theorem c4_images_float_formula (soup : Doc) :
    (audit_images soup).score = imagesFloatScore soup :=
  audit_images_score_eq soup

/-- The per-category string-list serialization round-trips. -/
theorem strListOfJson_map_str (l : List String) :
    strListOfJson (l.map Json.str) = some l := by
  induction l with
  | nil => rfl
  | cons s rest ih => simp [strListOfJson, ih]

/-- Re-parsing one emitted category dictionary recovers the score, the
findings, and the recommendations exactly when verbose mode is on (an
empty list otherwise), for any roast text. -/
theorem parseCategory_category_to_dict (no_roast verbose : Bool)
    (roastFn : ℕ → String → String) (name : String) (result : AuditResult) :
    parseCategory (category_to_dict no_roast verbose roastFn name result) =
      some ⟨(result.score : ℤ), result.findings,
            if verbose then result.recommendations else []⟩ := by
  unfold category_to_dict
  dsimp only
  rw [List.cons_append, List.cons_append, List.cons_append, List.cons_append,
      List.cons_append, List.cons_append]
  unfold parseCategory
  cases verbose with
  | true => simp [strListOfJson_map_str]
  | false => simp [strListOfJson_map_str, strListOfJson]

/-- A concrete audit with a non-empty recommendations list in its title
category. -/
def cw5 : WebsiteAudit :=
  { url := "u", timestamp := 0, duration_ms := 0,
    title := { score := 50, recommendations := ["Add a title"] },
    meta_description := { score := 0 }, headings := { score := 0 },
    images := { score := 70 }, mobile := { score := 60 },
    ssl_security := { score := 100 }, performance := { score := 100 },
    links := { score := 30 }, open_graph := { score := 0 },
    schema := { score := 0 } }

/-- C5 counterexample: with the verbose flag off, re-parsing the emitted
JSON does not reproduce the recommendations of `cw5` (its title category
has one recommendation, but the emitter serializes an empty list), so the
round trip fails for that setting of the reporter flags. -/
theorem c5_counterexample :
    cw5.title.recommendations = ["Add a title"] ∧
    parseReport (JsonReporter.generate false false (fun _ _ => "") cw5) ≠
      some (cw5.categories.map (fun kv =>
        (kv.1, ⟨(kv.2.score : ℤ), kv.2.findings, kv.2.recommendations⟩))) :=
  ⟨by decide, by decide⟩

/-- C5 (amended): for every `WebsiteAudit`, both reporter flags and any
roast text, serializing with the JSON emitter and re-parsing reproduces
every category score and every finding exactly; the recommendations are
reproduced exactly when the verbose flag is set, and are serialized as an
empty list otherwise. -/
theorem c5_json_round_trip (w : WebsiteAudit) (no_roast verbose : Bool)
    (roastFn : ℕ → String → String) :
    parseReport (JsonReporter.generate no_roast verbose roastFn w) =
      some (w.categories.map (fun kv =>
        (kv.1, ⟨(kv.2.score : ℤ), kv.2.findings,
                if verbose then kv.2.recommendations else []⟩))) := by
  unfold JsonReporter.generate parseReport WebsiteAudit.categories
  simp [parseCategories, parseCategory_category_to_dict]

/-- The failing input of the schema crash: a parsed document whose single
JSON-LD block is a dict with the list-valued `@type`
`["Organization", "LocalBusiness"]`. -/
def badSchemaDoc : Doc :=
  { jsonLd := [.objBlock (some (.arr [.str "Organization", .str "LocalBusiness"]))] }

/-- C7 (code bug): on every document where the schema analyzer returns,
its score is the count-based formula (0 for zero blocks, else
min 100 (40 + 20k)); every zero-block document short-circuits to the
fixed score-0 result with exactly two recommendations; a parse failure of
an individual block is swallowed and contributes nothing to the type
list — but on `badSchemaDoc`, one block whose `@type` is a list, the
analyzer raises an uncaught `TypeError` instead of returning score 60. -/
theorem c7_schema_count_contract_and_crash :
    (∀ (soup : Doc) (res : AuditResult), audit_schema soup = .ok res →
      res.score = if soup.jsonLd.length = 0 then 0
                  else min 100 (40 + soup.jsonLd.length * 20)) ∧
    (∀ soup : Doc, soup.jsonLd.length = 0 →
      audit_schema soup = .ok schemaZeroResult) ∧
    schemaZeroResult.recommendations.length = 2 ∧
    (blockTypes .parseError = []) ∧
    (∀ pre post : List JsonLdBlock,
      ((pre ++ JsonLdBlock.parseError :: post).map blockTypes).flatten =
        ((pre ++ post).map blockTypes).flatten) ∧
    audit_schema badSchemaDoc = .error .typeError ∧
    badSchemaDoc.jsonLd.length = 1 := by
  refine ⟨audit_schema_ok_score, ?_, rfl, rfl, ?_, rfl, rfl⟩
  · intro soup h
    unfold audit_schema
    dsimp only
    rw [h]
    rfl
  · intro pre post
    simp [blockTypes]

/-- Witness for C7 at concrete inputs: the score contract applied to the
zero-block result, and the short-circuit discharged for a concrete
zero-block document. -/
theorem c7_schema_count_contract_and_crash_witness :
    (schemaZeroResult.score =
      if ({} : Doc).jsonLd.length = 0 then 0
      else min 100 (40 + ({} : Doc).jsonLd.length * 20)) ∧
    audit_schema { jsonLd := [] } = .ok schemaZeroResult :=
  ⟨c7_schema_count_contract_and_crash.1 {} schemaZeroResult rfl,
   c7_schema_count_contract_and_crash.2.1 { jsonLd := [] } (by decide)⟩

/-- C8: `weighted_average([80, 90], [50, 50])` returns 85, and for every
pair of lists of different lengths `weighted_average` raises `ValueError`
rather than silently truncating either input. -/
theorem c8_weighted_average_spec :
    ScoreCalculator.weighted_average [80, 90] [50, 50] = .ok 85 ∧
    ∀ (ss ws : List ℤ), ss.length ≠ ws.length →
      ScoreCalculator.weighted_average ss ws =
        .error (.valueError "Scores and weights must have same length") := by
  refine ⟨rfl, ?_⟩
  intro ss ws h
  unfold ScoreCalculator.weighted_average
  rw [if_pos h]

/-- Witness for C8 at concrete mismatched lists. -/
theorem c8_weighted_average_spec_witness :
    ScoreCalculator.weighted_average [10] [] =
      .error (.valueError "Scores and weights must have same length") :=
  c8_weighted_average_spec.2 [10] [] (by decide)

/-- C9: for every fetch outcome (fixed headers and body) the analysis is
deterministic: the ten category results — scores, findings,
recommendations and raw data — do not depend on the clock readings, which
only enter the timestamp and `duration_ms`. -/
theorem c9_audit_deterministic_modulo_time (url : String)
    (fetched : Except FetchError Response) (t0 t1 u0 u1 : ℚ) :
    auditOutcomeCategories (WebsiteAuditor.audit url fetched t0 t1) =
      auditOutcomeCategories (WebsiteAuditor.audit url fetched u0 u1) := by
  cases fetched with
  | error e => rfl
  | ok r =>
    unfold WebsiteAuditor.audit
    cases h : raise_for_status r.status with
    | error e => simp [h]
    | ok u =>
      cases h2 : audit_schema r.doc with
      | error e => simp [h, h2]
      | ok res =>
        simp [h, h2, auditOutcomeCategories, WebsiteAudit.categories, buildAudit]

/-- C10: for every pair of non-empty equal-length lists whose weights sum
to 0, `weighted_average` raises an unhandled `ZeroDivisionError`: the
normalization branch divides each weight by the weight sum without
guarding against a zero sum. -/
theorem c10_weighted_average_zero_weights (ss ws : List ℤ) (hne : ss ≠ [])
    (hlen : ss.length = ws.length) (hsum : ws.sum = 0) :
    ScoreCalculator.weighted_average ss ws = .error .zeroDivisionError := by
  unfold ScoreCalculator.weighted_average
  rw [if_neg (by omega), if_neg hne]
  dsimp only
  rw [hsum]
  norm_num

/-- Witness for C10 at concrete lists with weights summing to zero. -/
theorem c10_weighted_average_zero_weights_witness :
    ScoreCalculator.weighted_average [5, 5] [1, -1] = .error .zeroDivisionError :=
  c10_weighted_average_zero_weights [5, 5] [1, -1] (by decide) (by decide) (by decide)

end SiteRoast
